import Mathlib

/-!
Verification development for a small mongoose tutorial repository.

The repository consists of:
* `src/cars/app.js` — a demo script chaining five database calls
  (remove-all, create, find-all, find-by-filter, find-one-and-update)
  through nested callbacks and one promise;
* `src/cars/db.js` — a connection wrapper installing handlers on the
  shared connection (the `error` handler logs and disconnects);
* `src/user.js` — the `User` schema declaration;
* readme / lesson markdown declaring the `Car` schema (the file `car.js`
  itself is referenced by `app.js` but only declared in the readme).

We embed the data model and the script as pure Lean functions.  The
script is modelled as a function from a per-step fault injection (which
database calls fail, and with which error value) to the trace of events
it produces: connection events, issued database calls, their completion
signals, console log lines, and the final disconnect.  The document
store semantics (delete-all, insert, filter-find, find-one-and-update)
are modelled from the spec, since the database itself is an external
dependency of the repository.
-/

namespace MongooseDemo

/-- The embedded `owner` sub-record of a Car document
(readme `CarSchema`: imageUrl, country, contactName, contactNumber,
all optional strings). -/
structure Owner where
  imageUrl : Option String
  country : Option String
  contactName : Option String
  contactNumber : Option String
  deriving DecidableEq

/-- A stored Car document.  `carId` stands for the document `_id`
assigned by the store; the remaining fields follow the readme
`CarSchema` (make, model required strings; year optional number;
color optional string; owner embedded record). -/
structure Car where
  carId : Nat
  make : String
  model : String
  year : Option Int
  color : Option String
  owner : Owner
  deriving DecidableEq

/-- A Car document as supplied to `create`, before an `_id` exists. -/
structure CarDoc where
  make : String
  model : String
  year : Option Int
  color : Option String
  owner : Owner
  deriving DecidableEq

/-- The two filters the demo script uses: `{}` and `{ make: 'Tesla' }`
(generalised to `{ make: m }`). -/
inductive CarFilter
  | all
  | byMake (m : String)
  deriving DecidableEq

/-- Modelled from the spec: a filter matches a document when every named
field equals the given value; the empty filter matches everything. -/
def carMatches : CarFilter → Car → Bool
  | .all, _ => true
  | .byMake m, c => c.make == m

/-- Modelled from the spec: `Car.remove(filter)` deletes every document
matching the filter (the demo passes `{}`, deleting all). -/
def removeCars (f : CarFilter) (s : List Car) : List Car :=
  s.filter (fun c => !carMatches f c)

/-- Modelled from the spec: `Car.find(filter)` returns exactly the
documents whose fields equal the filter's values. -/
def findCars (f : CarFilter) (s : List Car) : List Car :=
  s.filter (carMatches f)

/-- The update object of the demo's `findOneAndUpdate` call,
`{ model: 'X', color: 'beige' }` (generalised: each field optional). -/
structure CarUpdates where
  model : Option String
  color : Option String
  deriving DecidableEq

/-- Modelled from the spec: an update-by-filter replaces exactly the
named fields of the document and leaves every other field unchanged. -/
def applyUpdates (u : CarUpdates) (c : Car) : Car :=
  { c with
    model := match u.model with | some m => m | none => c.model
    color := match u.color with | some x => some x | none => c.color }

/-- The options object of the demo's `findOneAndUpdate` call,
`{ new: true }`: return the updated document rather than the old one. -/
structure FoauOptions where
  new : Bool
  deriving DecidableEq

/-- Modelled from the spec: `Car.findOneAndUpdate(filter, updates, options)`
updates the first document matching the filter and returns it (the
updated version when `options.new`, the old one otherwise), leaving all
other documents untouched. -/
def findOneAndUpdate (f : CarFilter) (u : CarUpdates) (o : FoauOptions) :
    List Car → Option Car × List Car
  | [] => (none, [])
  | c :: cs =>
    if carMatches f c then
      (some (if o.new then applyUpdates u c else c), applyUpdates u c :: cs)
    else
      let r := findOneAndUpdate f u o cs
      (r.1, c :: r.2)

/-- Modelled from the spec: insertion assigns consecutive fresh ids to
the supplied documents (`nid` is the next free id). -/
def mkCar (nid : Nat) (d : CarDoc) : Car :=
  { carId := nid, make := d.make, model := d.model, year := d.year,
    color := d.color, owner := d.owner }

/-- The documents produced by `Car.create(docs)`, with ids from `nid`. -/
def insertCars (nid : Nat) : List CarDoc → List Car
  | [] => []
  | d :: ds => mkCar nid d :: insertCars (nid + 1) ds

/-- Modelled from the spec: `Car.create(docs)` appends the new documents
to the collection. -/
def createCars (nid : Nat) (ds : List CarDoc) (s : List Car) : List Car :=
  s ++ insertCars nid ds

/-- An owner record with no field supplied (the demo supplies none). -/
def noOwner : Owner := ⟨none, none, none, none⟩

/-- `{ make: 'Tesla', model: 'S', color: 'black', year: 2014 }` from app.js. -/
def teslaSDoc : CarDoc :=
  { make := "Tesla", model := "S", year := some 2014,
    color := some "black", owner := noOwner }

/-- `{ make: 'Porsche', model: '911', color: 'silver', year: 2011 }` from app.js. -/
def porscheDoc : CarDoc :=
  { make := "Porsche", model := "911", year := some 2011,
    color := some "silver", owner := noOwner }

/-- `theCars` array of app.js. -/
def theCars : List CarDoc := [teslaSDoc, porscheDoc]

/-- `var updates = { model: 'X', color: 'beige' }` of app.js. -/
def demoUpdates : CarUpdates := ⟨some "X", some "beige"⟩

/-! ## The demo script (src/cars/app.js) as a trace semantics

`app.js` issues five database calls, each from inside the completion
callback (or `then` handler) of the previous one.  We model one run of
the script as the list of observable events it produces, parameterised
by a fault injection: for each of the five steps, `none` means the call
completes successfully and `some e` means it completes with the error
value `e` (error values abstracted as naturals). -/

/-- The five database operations of the demo script, in program order. -/
inductive DbOp
  | removeAll
  | create
  | findAll
  | findTesla
  | update
  deriving DecidableEq

/-- Observable events of a run: the connection opening and closing,
issued database calls and their completion signals, console output, and
an uncaught-exception crash. -/
inductive Event
  | connect
  | disconnect
  | call (op : DbOp)
  | ok (op : DbOp)
  | fail (op : DbOp) (e : Nat)
  | logMsg (m : String)
  | logError (e : Nat)
  | logRaw (e : Nat)
  | printCar (c : Car)
  | crash
  deriving DecidableEq

/-- `handleError` of app.js: logs `'ERROR:', err` on one console line and
returns the error value.  First component: the events it produces;
second component: its return value. -/
def handleError (e : Nat) : List Event × Nat :=
  ([Event.logError e], e)

/-- `quit` of app.js: `mongoose.disconnect()` then `console.log('All Done!')`. -/
def quitEvents : List Event :=
  [Event.disconnect, Event.logMsg "All Done!"]

/-- The `db.on('error', ...)` handler of src/cars/db.js: logs the
connection error and calls `mongoose.disconnect()`. -/
def dbOnError (e : Nat) : List Event :=
  [Event.logMsg ("Mongoose connection error: " ++ toString e),
   Event.disconnect]

/-- Step 5 of app.js: the `Car.findOneAndUpdate({make:'Tesla'}, updates,
{new:true}, cb)` call.  On error the callback early-returns through
`handleError`; on success it logs, prints the updated document (a crash
if the filter matched nothing, since `updated` would be `null`) and
calls `quit`. -/
def stage4 (f4 : Option Nat) (s2 : List Car) : List Event :=
  [Event.logMsg "Updating the Tesla...", Event.call .update] ++
  match f4 with
  | some e => Event.fail .update e :: (handleError e).1
  | none =>
    let r := findOneAndUpdate (.byMake "Tesla") demoUpdates ⟨true⟩ s2
    [Event.ok .update, Event.logMsg "Updated!"] ++
    (match r.1 with
     | some u => [Event.printCar u]
     | none => [Event.crash]) ++
    quitEvents

/-- Step 4 of app.js: the `Car.find({make:'Tesla'}, cb)` call.  On error
the callback logs the error with a bare `console.log(err)` and does NOT
return; it then crashes dereferencing the absent result (`found.forEach`
on `undefined`).  On success it prints each found car and runs step 5. -/
def stage3 (f3 f4 : Option Nat) (s2 : List Car) : List Event :=
  [Event.logMsg "Fetching all of the Teslas", Event.call .findTesla] ++
  match f3 with
  | some e => [Event.fail .findTesla e, Event.logRaw e, Event.crash]
  | none =>
    Event.ok .findTesla ::
      ((findCars (.byMake "Tesla") s2).map Event.printCar ++ stage4 f4 s2)

/-- Step 3 of app.js: the `Car.find({}, cb)` call.  On error the callback
early-returns through `handleError`; on success it prints every fetched
car and runs step 4. -/
def stage2 (f2 f3 f4 : Option Nat) (s2 : List Car) : List Event :=
  [Event.logMsg "Fetching all cars...", Event.call .findAll] ++
  match f2 with
  | some e => Event.fail .findAll e :: (handleError e).1
  | none =>
    Event.ok .findAll ::
      ((findCars .all s2).map Event.printCar ++ stage3 f3 f4 s2)

/-- Step 2 of app.js: the `Car.create(theCars)` promise with a single
`.then` fulfillment handler and no rejection handler: on rejection
nothing further happens at all.  On fulfillment it logs the count of
saved cars and runs step 3 on the grown collection. -/
def stage1 (f1 f2 f3 f4 : Option Nat) (nid : Nat) (s1 : List Car) : List Event :=
  [Event.logMsg "Creating some cars...", Event.call .create] ++
  match f1 with
  | some e => [Event.fail .create e]
  | none =>
    let saved := insertCars nid theCars
    Event.ok .create ::
      Event.logMsg ("Finished creating cars: " ++ toString saved.length) ::
        stage2 f2 f3 f4 (s1 ++ saved)

/-- One run of src/cars/app.js: `mongoose.connect` at module load, then
the chain rooted at `Car.remove({}, cb)` (step 1; its callback
early-returns through `handleError` on error).  `fk` injects the outcome
of step k+1, `nid` is the next free document id, `s0` the initial Car
collection. -/
def appRun (f0 f1 f2 f3 f4 : Option Nat) (nid : Nat) (s0 : List Car) :
    List Event :=
  [Event.connect, Event.logMsg "Removing any old cars...",
   Event.call .removeAll] ++
  match f0 with
  | some e => Event.fail .removeAll e :: (handleError e).1
  | none =>
    Event.ok .removeAll :: stage1 f1 f2 f3 f4 nid (removeCars .all s0)

/-- The program order of the five database calls. -/
def opOrder : List DbOp := [.removeAll, .create, .findAll, .findTesla, .update]

/-- `true` for the error-logging console events (`handleError`'s
`console.log('ERROR:', err)` and the bare `console.log(err)`). -/
def isErrLogEv : Event → Bool
  | .logError _ => true
  | .logRaw _ => true
  | _ => false

/-- `true` for any console-log event. -/
def isLogEv : Event → Bool
  | .logMsg _ => true
  | .logError _ => true
  | .logRaw _ => true
  | _ => false

/-- `true` for an issued database call. -/
def isCallEv : Event → Bool
  | .call _ => true
  | _ => false

/-- `true` for an error completion signal. -/
def isFailEv : Event → Bool
  | .fail _ _ => true
  | _ => false

/-- The events a run produces strictly after its first error completion
(`[]` when no call fails). -/
def failSuffix (t : List Event) : List Event :=
  (t.dropWhile (fun ev => !isFailEv ev)).tail

/-- Sequencing checker: scans a trace with the operation currently in
flight and the operations not yet issued.  It accepts exactly the traces
in which calls are issued in the fixed program order, a call is issued
only when no operation is outstanding, and every completion signal
matches the outstanding call. -/
def seqCheck : Option DbOp → List DbOp → List Event → Bool
  | st, _, [] => st.isNone
  | st, rem, ev :: t =>
    match ev with
    | .call op =>
      match st, rem with
      | none, r :: rs => op == r && seqCheck (some op) rs t
      | _, _ => false
    | .ok op =>
      match st with
      | some o => op == o && seqCheck none rem t
      | none => false
    | .fail op _ =>
      match st with
      | some o => op == o && seqCheck none rem t
      | none => false
    | _ => seqCheck st rem t

/-- A trace is well sequenced when, starting with nothing in flight and
the five demo operations pending, `seqCheck` accepts it. -/
def wellSequenced (t : List Event) : Bool :=
  seqCheck none opOrder t

/-! ## Schema declarations

The mongoose schema declarations are embedded as association lists from
field names to field specifications, recording the declared type and the
validation flags (`required`, `unique`) and whether a default value is
declared. -/

/-- The mongoose datatypes used by the two schemas. -/
inductive FieldType
  | str
  | num
  | date
  deriving DecidableEq

/-- One field's declaration: its type and its validation flags. -/
structure FieldSpec where
  ftype : FieldType
  required : Bool
  unique : Bool
  hasDefault : Bool
  deriving DecidableEq

/-- A top-level schema entry: a plain field or a nested record of plain
fields. -/
inductive SchemaField
  | leaf (spec : FieldSpec)
  | nested (fields : List (String × FieldSpec))
  deriving DecidableEq

/-- Shorthand for an optional, non-unique, defaultless field. -/
def plainField (t : FieldType) : FieldSpec :=
  ⟨t, false, false, false⟩

/-- The `userSchema` declaration of src/user.js: first_name and
last_name plain strings, email a required unique string, meta a nested
record of four plain fields, created_at and updated_at plain dates.  No
options object (hence no automatic-timestamp option) is passed. -/
def userSchema : List (String × SchemaField) :=
  [("first_name", .leaf (plainField .str)),
   ("last_name", .leaf (plainField .str)),
   ("email", .leaf ⟨.str, true, true, false⟩),
   ("meta", .nested
     [("age", plainField .num),
      ("website", plainField .str),
      ("address", plainField .str),
      ("country", plainField .str)]),
   ("created_at", .leaf (plainField .date)),
   ("updated_at", .leaf (plainField .date))]

/-- src/user.js passes no second argument to `new mongoose.Schema`, so
the `timestamps` schema option is not enabled. -/
def userSchemaTimestamps : Bool := false

/-- Modelled from the spec: the `CarSchema` declaration of `car.js`
(the file itself is absent from the sources; app.js requires it and the
readme declares it): make and model required strings, year an optional
number, color an optional string, owner a nested record of four
optional strings. -/
def CarSchema : List (String × SchemaField) :=
  [("make", .leaf ⟨.str, true, false, false⟩),
   ("model", .leaf ⟨.str, true, false, false⟩),
   ("year", .leaf (plainField .num)),
   ("color", .leaf (plainField .str)),
   ("owner", .nested
     [("imageUrl", plainField .str),
      ("country", plainField .str),
      ("contactName", plainField .str),
      ("contactNumber", plainField .str)])]

/-- The Car schema as the spec sentence describes it, written from the
spec's words alone: make required text, model required text, year
optional integer, color optional text, owner a nested record of four
optional fields, required-ness the only validation constraint on make
and model. -/
def carSchemaClaimed : List (String × SchemaField) :=
  [("make", .leaf ⟨.str, true, false, false⟩),
   ("model", .leaf ⟨.str, true, false, false⟩),
   ("year", .leaf ⟨.num, false, false, false⟩),
   ("color", .leaf ⟨.str, false, false, false⟩),
   ("owner", .nested
     [("imageUrl", ⟨.str, false, false, false⟩),
      ("country", ⟨.str, false, false, false⟩),
      ("contactName", ⟨.str, false, false, false⟩),
      ("contactNumber", ⟨.str, false, false, false⟩)])]

/-! ## The User data model (src/user.js) -/

/-- The embedded `meta` sub-record of a User document. -/
structure UserMeta where
  age : Option Nat
  website : Option String
  address : Option String
  country : Option String
  deriving DecidableEq

/-- A User document; absent fields are `none`.  Dates are abstracted as
naturals (milliseconds since the epoch). -/
structure UserDoc where
  first_name : Option String
  last_name : Option String
  email : Option String
  meta : UserMeta
  created_at : Option Nat
  updated_at : Option Nat
  deriving DecidableEq

/-- How an insert of a User document can fail. -/
inductive InsertError
  | requiredMissing (field : String)
  | uniqueViolation (field : String)
  deriving DecidableEq

/-- Modelled from the spec: inserting a User document first runs the
schema validation (`email` is required) and then the unique index on
`email` (inserting a second document with the same email fails with a
uniqueness violation); a successful insert stores the document exactly
as supplied. -/
def insertUser (us : List UserDoc) (u : UserDoc) :
    Except InsertError (List UserDoc) :=
  if u.email.isNone then .error (.requiredMissing "email")
  else if us.any (fun v => v.email == u.email) then
    .error (.uniqueViolation "email")
  else .ok (us ++ [u])

/-! ## Helper lemmas -/

/-- The empty filter removes every document: `Car.remove({})` leaves the
collection empty. -/
theorem removeCars_all (s : List Car) : removeCars .all s = [] := by
  induction s with
  | nil => rfl
  | cons c cs ih => simp [removeCars, carMatches] at ih ⊢

/-- The empty filter keeps every document: `Car.find({})` returns the
whole collection. -/
theorem findCars_all (s : List Car) : findCars .all s = s := by
  induction s with
  | nil => rfl
  | cons c cs ih => simp [findCars, carMatches] at ih ⊢

/-! ## Claim theorems -/

/-- Claim C2 (confirmed): in every run of the demo script the database
calls are issued in the fixed order remove-all, create, find-all,
find-by-filter, find-and-update, each call only after the previous
call's completion signal, with at most one operation in flight
(`wellSequenced`); and in the fault-free run all five calls are issued. -/
theorem demo_calls_sequential (f0 f1 f2 f3 f4 : Option Nat) (nid : Nat)
    (s0 : List Car) :
    wellSequenced (appRun f0 f1 f2 f3 f4 nid s0) = true ∧
    (appRun none none none none none nid s0).filter isCallEv =
      opOrder.map Event.call := by
  have h := removeCars_all s0
  constructor
  · rcases f0 with _ | e0 <;> rcases f1 with _ | e1 <;>
      rcases f2 with _ | e2 <;> rcases f3 with _ | e3 <;>
      rcases f4 with _ | e4 <;>
      simp [appRun, h, stage1, stage2, stage3, stage4, wellSequenced,
        seqCheck, handleError, quitEvents, insertCars, theCars, findCars,
        carMatches, mkCar, teslaSDoc, porscheDoc, findOneAndUpdate, opOrder]
  · simp [appRun, h, stage1, stage2, stage3, stage4, handleError,
      quitEvents, insertCars, theCars, findCars, carMatches, mkCar,
      teslaSDoc, porscheDoc, findOneAndUpdate, opOrder, isCallEv,
      demoUpdates, applyUpdates]

/-- Claim C1 (counterexample): in the run whose create step is rejected
(error value 7), an operation completes with an error yet no error value
is ever passed to a logger — the claim that every failing operation's
error is passed to the single-line logger is false on this run. -/
theorem create_error_not_logged_cex :
    Event.fail .create 7 ∈ appRun none (some 7) none none none 0 [] ∧
    (appRun none (some 7) none none none 0 []).filter isErrLogEv = [] := by
  exact ⟨by decide, by decide⟩

/-- Claim C1 (amended): after the first operation error no further
database call is ever issued, and: a remove-all, find-all or
find-and-update error is passed to `handleError` and the chain ends by
early return; a create error produces no events at all (the promise has
no rejection handler); a find-by-filter error is logged by a bare
`console.log` without an early return, after which the callback crashes
dereferencing the missing result. -/
theorem first_error_abandons_chain (f1 f2 f3 f4 : Option Nat) (nid : Nat)
    (s0 : List Car) (e : Nat) :
    (failSuffix (appRun (some e) f1 f2 f3 f4 nid s0) = [Event.logError e] ∧
     (failSuffix (appRun (some e) f1 f2 f3 f4 nid s0)).filter isCallEv = []) ∧
    (failSuffix (appRun none (some e) f2 f3 f4 nid s0) = [] ∧
     (failSuffix (appRun none (some e) f2 f3 f4 nid s0)).filter isCallEv = []) ∧
    (failSuffix (appRun none none (some e) f3 f4 nid s0) = [Event.logError e] ∧
     (failSuffix (appRun none none (some e) f3 f4 nid s0)).filter isCallEv = []) ∧
    (failSuffix (appRun none none none (some e) f4 nid s0) =
       [Event.logRaw e, Event.crash] ∧
     (failSuffix (appRun none none none (some e) f4 nid s0)).filter isCallEv
       = []) ∧
    (failSuffix (appRun none none none none (some e) nid s0) =
       [Event.logError e] ∧
     (failSuffix (appRun none none none none (some e) nid s0)).filter isCallEv
       = []) := by
  have h := removeCars_all s0
  refine ⟨⟨rfl, rfl⟩, ⟨rfl, rfl⟩, ⟨rfl, rfl⟩, ⟨?_, ?_⟩, ⟨?_, ?_⟩⟩ <;>
    simp [appRun, h, stage1, stage2, stage3, stage4, failSuffix, handleError,
      insertCars, theCars, findCars, carMatches, mkCar, teslaSDoc,
      porscheDoc, isFailEv, isCallEv]

/-- Claim C3 (confirmed): when the demo's find-one-and-update with
filter `{make:'Tesla'}`, updates `{model:'X', color:'beige'}` and
`{new:true}` matches a stored record, the resulting record (both the
returned one and the stored one) has model "X" and color "beige" and is
unchanged in make, year, owner and id. -/
theorem update_tesla_frame (s : List Car) (c : Car)
    (h : s.find? (carMatches (.byMake "Tesla")) = some c) :
    (findOneAndUpdate (.byMake "Tesla") demoUpdates ⟨true⟩ s).1 =
      some (applyUpdates demoUpdates c) ∧
    applyUpdates demoUpdates c ∈
      (findOneAndUpdate (.byMake "Tesla") demoUpdates ⟨true⟩ s).2 ∧
    (applyUpdates demoUpdates c).model = "X" ∧
    (applyUpdates demoUpdates c).color = some "beige" ∧
    (applyUpdates demoUpdates c).make = c.make ∧
    (applyUpdates demoUpdates c).year = c.year ∧
    (applyUpdates demoUpdates c).owner = c.owner ∧
    (applyUpdates demoUpdates c).carId = c.carId := by
  have main : (findOneAndUpdate (.byMake "Tesla") demoUpdates ⟨true⟩ s).1 =
      some (applyUpdates demoUpdates c) ∧
      applyUpdates demoUpdates c ∈
        (findOneAndUpdate (.byMake "Tesla") demoUpdates ⟨true⟩ s).2 := by
    induction s with
    | nil => simp at h
    | cons a as ih =>
      by_cases hm : carMatches (.byMake "Tesla") a = true
      · rw [List.find?_cons_of_pos _ hm] at h
        cases h
        simp [findOneAndUpdate, hm]
      · rw [List.find?_cons_of_neg _ hm] at h
        have := ih h
        simp [findOneAndUpdate, hm, this.1, this.2]
  refine ⟨main.1, main.2, ?_, ?_, ?_, ?_, ?_, ?_⟩ <;>
    simp [applyUpdates, demoUpdates]

/-- Witness for C3: the update applied to the stored Tesla S record. -/
theorem update_tesla_frame_witness :
    (findOneAndUpdate (.byMake "Tesla") demoUpdates ⟨true⟩
        [mkCar 0 teslaSDoc]).1 =
      some (applyUpdates demoUpdates (mkCar 0 teslaSDoc)) ∧
    applyUpdates demoUpdates (mkCar 0 teslaSDoc) ∈
      (findOneAndUpdate (.byMake "Tesla") demoUpdates ⟨true⟩
        [mkCar 0 teslaSDoc]).2 ∧
    (applyUpdates demoUpdates (mkCar 0 teslaSDoc)).model = "X" ∧
    (applyUpdates demoUpdates (mkCar 0 teslaSDoc)).color = some "beige" ∧
    (applyUpdates demoUpdates (mkCar 0 teslaSDoc)).make =
      (mkCar 0 teslaSDoc).make ∧
    (applyUpdates demoUpdates (mkCar 0 teslaSDoc)).year =
      (mkCar 0 teslaSDoc).year ∧
    (applyUpdates demoUpdates (mkCar 0 teslaSDoc)).owner =
      (mkCar 0 teslaSDoc).owner ∧
    (applyUpdates demoUpdates (mkCar 0 teslaSDoc)).carId =
      (mkCar 0 teslaSDoc).carId :=
  update_tesla_frame [mkCar 0 teslaSDoc] (mkCar 0 teslaSDoc) (by decide)

/-- Claim C4 (confirmed): `email` is declared required and unique in the
User schema; inserting a User whose email equals a stored User's email
fails with a uniqueness violation, and inserting a User with no email
fails the required validation. -/
theorem user_email_required_unique (us : List UserDoc) (u v u0 : UserDoc)
    (em : String) (hv : v ∈ us) (hve : v.email = some em)
    (hue : u.email = some em) (h0 : u0.email = none) :
    userSchema.lookup "email" =
      some (.leaf ⟨.str, true, true, false⟩) ∧
    insertUser us u = .error (.uniqueViolation "email") ∧
    insertUser us u0 = .error (.requiredMissing "email") := by
  refine ⟨rfl, ?_, ?_⟩
  · have hany : us.any (fun w => w.email == u.email) = true := by
      refine List.any_eq_true.mpr ⟨v, hv, ?_⟩
      simp [hve, hue]
    simp [insertUser, hue, hany]
    exact ⟨v, hv, hve⟩
  · simp [insertUser, h0]

/-- Witness for C4: a duplicate email and a missing email, concretely. -/
theorem user_email_required_unique_witness :
    userSchema.lookup "email" =
      some (.leaf ⟨.str, true, true, false⟩) ∧
    insertUser [⟨none, none, some "a@b.c", ⟨none, none, none, none⟩,
        none, none⟩]
      ⟨some "x", none, some "a@b.c", ⟨none, none, none, none⟩,
        none, none⟩ = .error (.uniqueViolation "email") ∧
    insertUser [⟨none, none, some "a@b.c", ⟨none, none, none, none⟩,
        none, none⟩]
      ⟨none, none, none, ⟨none, none, none, none⟩, none, none⟩ =
      .error (.requiredMissing "email") :=
  user_email_required_unique
    [⟨none, none, some "a@b.c", ⟨none, none, none, none⟩, none, none⟩]
    ⟨some "x", none, some "a@b.c", ⟨none, none, none, none⟩, none, none⟩
    ⟨none, none, some "a@b.c", ⟨none, none, none, none⟩, none, none⟩
    ⟨none, none, none, ⟨none, none, none, none⟩, none, none⟩
    "a@b.c" (by decide) rfl rfl rfl

/-- Claim C5 (confirmed): a delete-all followed by creating the demo's
two records makes find-all return exactly those two records; and a find
filtered by `{make:'Tesla'}` returns only records whose make is
"Tesla". -/
theorem seed_find_returns_created (s s' : List Car) (nid : Nat) (c : Car)
    (h : c ∈ findCars (.byMake "Tesla") s') :
    findCars .all (createCars nid theCars (removeCars .all s)) =
      [mkCar nid teslaSDoc, mkCar (nid + 1) porscheDoc] ∧
    c.make = "Tesla" := by
  constructor
  · rw [removeCars_all]
    simp [createCars, insertCars, theCars, findCars, carMatches]
  · simp [findCars, List.mem_filter, carMatches] at h
    exact h.2

/-- Witness for C5: the concrete seeded collection. -/
theorem seed_find_returns_created_witness :
    findCars .all (createCars 0 theCars (removeCars .all [])) =
      [mkCar 0 teslaSDoc, mkCar (0 + 1) porscheDoc] ∧
    (mkCar 0 teslaSDoc).make = "Tesla" :=
  seed_find_returns_created [] [mkCar 0 teslaSDoc] 0 (mkCar 0 teslaSDoc)
    (by decide)

/-- Claim C6 (confirmed): the Car schema declares exactly make and model
as required (and not otherwise constrained) strings, year an optional
number, color an optional string, and owner a nested record of four
optional string fields — the declaration coincides with the schema the
claim describes. -/
theorem car_schema_matches_claim :
    CarSchema = carSchemaClaimed ∧
    CarSchema.lookup "make" = some (.leaf ⟨.str, true, false, false⟩) ∧
    CarSchema.lookup "model" = some (.leaf ⟨.str, true, false, false⟩) :=
  ⟨rfl, rfl, rfl⟩

/-- Claim C7 (counterexample): in the run whose remove-all step fails
(error value 3), the connection is opened but never closed — the claim
that every run closes the connection exactly once is false on this
run. -/
theorem error_run_never_disconnects_cex :
    (appRun (some 3) none none none none 0 []).count Event.disconnect = 0 ∧
    (appRun (some 3) none none none none 0 []).count Event.connect = 1 :=
  ⟨rfl, rfl⟩

set_option maxHeartbeats 1600000 in
/-- Claim C7 (amended): every run opens the connection exactly once, as
its first action; the fault-free run closes it exactly once (via
`quit`); a run whose chain hits an operation error never calls
disconnect. -/
theorem connect_once_disconnect_on_success (f0 f1 f2 f3 f4 : Option Nat)
    (nid : Nat) (s0 : List Car) (e : Nat) :
    (appRun f0 f1 f2 f3 f4 nid s0).count Event.connect = 1 ∧
    (appRun f0 f1 f2 f3 f4 nid s0).head? = some Event.connect ∧
    (appRun none none none none none nid s0).count Event.disconnect = 1 ∧
    (appRun (some e) f1 f2 f3 f4 nid s0).count Event.disconnect = 0 ∧
    (appRun none (some e) f2 f3 f4 nid s0).count Event.disconnect = 0 ∧
    (appRun none none (some e) f3 f4 nid s0).count Event.disconnect = 0 ∧
    (appRun none none none (some e) f4 nid s0).count Event.disconnect = 0 ∧
    (appRun none none none none (some e) nid s0).count Event.disconnect
      = 0 := by
  have h := removeCars_all s0
  refine ⟨?_, rfl, ?_, rfl, rfl, rfl, ?_, ?_⟩
  · rcases f0 with _ | e0 <;> rcases f1 with _ | e1 <;>
      rcases f2 with _ | e2 <;> rcases f3 with _ | e3 <;>
      rcases f4 with _ | e4 <;>
      simp [appRun, h, stage1, stage2, stage3, stage4, handleError,
        quitEvents, insertCars, theCars, findCars, carMatches, mkCar,
        teslaSDoc, porscheDoc, findOneAndUpdate, demoUpdates, applyUpdates,
        List.count_cons, List.count_append]
  all_goals
    simp [appRun, h, stage1, stage2, stage3, stage4, handleError,
      quitEvents, insertCars, theCars, findCars, carMatches, mkCar,
      teslaSDoc, porscheDoc, findOneAndUpdate, demoUpdates, applyUpdates,
      List.count_cons, List.count_append]

/-- Claim C8 (counterexample): the connection-error handler of db.js,
run on error value 5, performs a non-logging action — it calls
`mongoose.disconnect()` — so the claim that no error handler performs
any action beyond logging is false. -/
theorem db_error_handler_disconnects_cex :
    (dbOnError 5).filter (fun ev => !isLogEv ev) = [Event.disconnect] := by
  decide

/-- Claim C8 (amended): `handleError` only logs the error on one console
line (and returns it); after any operation error the script performs no
disconnect; but the connection-error handler of db.js both logs and
calls `mongoose.disconnect`, a state-changing action beyond logging. -/
theorem error_handlers_only_log_except_db (f1 f2 f3 f4 : Option Nat)
    (nid : Nat) (s0 : List Car) (e : Nat) :
    (handleError e).1 = [Event.logError e] ∧
    (handleError e).2 = e ∧
    dbOnError e = [Event.logMsg ("Mongoose connection error: " ++
      toString e), Event.disconnect] ∧
    (failSuffix (appRun (some e) f1 f2 f3 f4 nid s0)).count
      Event.disconnect = 0 ∧
    (failSuffix (appRun none (some e) f2 f3 f4 nid s0)).count
      Event.disconnect = 0 ∧
    (failSuffix (appRun none none (some e) f3 f4 nid s0)).count
      Event.disconnect = 0 ∧
    (failSuffix (appRun none none none (some e) f4 nid s0)).count
      Event.disconnect = 0 ∧
    (failSuffix (appRun none none none none (some e) nid s0)).count
      Event.disconnect = 0 := by
  have h := removeCars_all s0
  refine ⟨rfl, rfl, rfl, rfl, rfl, rfl, ?_, ?_⟩ <;>
    simp [appRun, h, stage1, stage2, stage3, stage4, failSuffix,
      handleError, insertCars, theCars, findCars, carMatches, mkCar,
      teslaSDoc, porscheDoc, isFailEv, List.count_cons, List.count_append]

/-- Claim C9 (confirmed): when the create step's promise is rejected the
run's whole trace ends at the rejection: nothing is logged after it, no
further database call is issued, and `quit` (hence
`mongoose.disconnect`) is never invoked. -/
theorem create_rejection_silent (f2 f3 f4 : Option Nat) (nid : Nat)
    (s0 : List Car) (e : Nat) :
    appRun none (some e) f2 f3 f4 nid s0 =
      [Event.connect, Event.logMsg "Removing any old cars...",
       Event.call .removeAll, Event.ok .removeAll,
       Event.logMsg "Creating some cars...", Event.call .create,
       Event.fail .create e] ∧
    failSuffix (appRun none (some e) f2 f3 f4 nid s0) = [] ∧
    (appRun none (some e) f2 f3 f4 nid s0).count Event.disconnect = 0 :=
  ⟨rfl, rfl, rfl⟩

/-- Claim C10 (confirmed): created_at and updated_at are declared as
plain optional dates with no default and the schema has no
automatic-timestamp option; an insert stores the document exactly as
supplied, so fields not supplied (in particular the two timestamps)
remain unset, and no operation in the repository sets them. -/
theorem user_timestamps_plain (us us' : List UserDoc) (u : UserDoc)
    (h : insertUser us u = .ok us') :
    userSchema.lookup "created_at" =
      some (.leaf ⟨.date, false, false, false⟩) ∧
    userSchema.lookup "updated_at" =
      some (.leaf ⟨.date, false, false, false⟩) ∧
    userSchemaTimestamps = false ∧
    us' = us ++ [u] := by
  refine ⟨rfl, rfl, rfl, ?_⟩
  unfold insertUser at h
  split at h
  · exact absurd h (by simp)
  · split at h
    · exact absurd h (by simp)
    · cases h; rfl

/-- Witness for C10: a concrete successful insert stores the document
unchanged, timestamps unset. -/
theorem user_timestamps_plain_witness :
    userSchema.lookup "created_at" =
      some (.leaf ⟨.date, false, false, false⟩) ∧
    userSchema.lookup "updated_at" =
      some (.leaf ⟨.date, false, false, false⟩) ∧
    userSchemaTimestamps = false ∧
    ([⟨none, none, some "a@b.c", ⟨none, none, none, none⟩, none, none⟩]
      : List UserDoc) =
      [] ++ [⟨none, none, some "a@b.c", ⟨none, none, none, none⟩,
        none, none⟩] :=
  user_timestamps_plain []
    [⟨none, none, some "a@b.c", ⟨none, none, none, none⟩, none, none⟩]
    ⟨none, none, some "a@b.c", ⟨none, none, none, none⟩, none, none⟩
    rfl

end MongooseDemo
